import Mathlib

/-!
# Cloud reconciler — shallow embedding and verification

A shallow embedding of `gcp/cloud_reconciler/main.py` and
`gcp/cloud_reconciler/state_machine.py`: the per-run blob-store objects are a
record (`RunStore`), the wall clock, timestamp parsing and the compute API are
an explicit environment (`Env`), and each Python function becomes a Lean
function of the same name that threads the store explicitly.  The store is
modelled as reliable and free of concurrent writers, so every unconditional
store operation succeeds and every CAS succeeds on the first try.  Timestamps
kept in blobs stay strings (as in the JSON); the environment supplies the
`_parse_iso` partial parse as `parseIso` and wall-clock UTC as `now` (seconds,
so all age computations are `Nat` subtractions compared against the positive
thresholds, which matches the branch behaviour of the Python float
arithmetic).
-/

namespace Reconciler

/-! ## Constants (module-level configuration defaults of `main.py`) -/

def HEARTBEAT_STALE_SEC : Nat := 600

def RESTARTING_STUCK_SEC : Nat := 600

def STALE_MARKER_MIN_AGE_SEC : Nat := 120

/-! ## `state_machine.py` -/

def TERMINAL_STATES : List String := ["COMPLETE", "FAILED", "PARTIAL", "STOPPED"]

def VALID_ACTORS : List String := ["vm", "reconciler", "local", "operator"]

def STATUS_COMPAT_MAP : List (String × String) :=
  [("RUNNING", "RUNNING"),
   ("COMPLETE", "COMPLETE"),
   ("FAILED", "FAILED"),
   ("PARTIAL", "PARTIAL"),
   ("PREEMPTED", "PREEMPTED"),
   ("ORPHANED", "PREEMPTED"),
   ("RESTARTING", "RUNNING"),
   ("STOPPED", "STOPPED")]

def is_terminal (state : String) : Bool :=
  TERMINAL_STATES.contains state

def status_compat (state : String) : String :=
  (STATUS_COMPAT_MAP.lookup state).getD state

/-- Modelled from the spec: the canonical `state_transitions.json` document is
not part of the sources (only `state_machine.py`, which loads it, is); its
`edges` map is taken verbatim from the spec's table of allowed edges
(terminal states have no outgoing edges and hence no entry). -/
def transition_edges : List (String × List String) :=
  [("null", ["RUNNING", "ORPHANED"]),
   ("RUNNING", ["COMPLETE", "FAILED", "PARTIAL", "PREEMPTED", "ORPHANED", "STOPPED"]),
   ("PREEMPTED", ["RESTARTING", "STOPPED"]),
   ("ORPHANED", ["RESTARTING", "STOPPED"]),
   ("RESTARTING", ["RUNNING", "ORPHANED", "STOPPED"])]

/-- Modelled from the spec: the `actor_guards` map of the canonical
`state_transitions.json` document, keyed `"<from>:<to>"`; the only guarded
edge is `null → ORPHANED`, restricted to the `reconciler` actor. -/
def transition_actor_guards : List (String × List String) :=
  [("null:ORPHANED", ["reconciler"])]

/-- `state_machine.can_transition`.  The Python function returns `True` or
raises `ValueError`; the embedding returns `false` where the Python raises
(every caller in `main.py` catches the `ValueError` and treats it as a
rejection). -/
def can_transition (from_state : Option String) (to_state : String)
    (actor : String) : Bool :=
  if ¬ VALID_ACTORS.contains actor then false
  else
    let from_key := from_state.getD "null"
    let allowed_targets := (transition_edges.lookup from_key).getD []
    if ¬ allowed_targets.contains to_state then false
    else
      match transition_actor_guards.lookup (from_key ++ ":" ++ to_state) with
      | some allowed_actors => allowed_actors.contains actor
      | none => true

/-! ## Data model: per-run blob-store objects -/

/-- One entry of `state.json.history` (`{from, to, at, by, reason}`). -/
structure HistoryEntry where
  fromState : Option String
  toState : String
  atTime : String
  byActor : String
  reason : String
deriving Repr, DecidableEq

/-- The parsed `state.json` dictionary.  Fields the Python reads with a
`.get(key, default)` default are stored with that default already applied;
`state_version` and the legacy `generation` field keep their "absent" case
because `_write_state_cas` distinguishes it. -/
structure StateRecord where
  state : Option String
  prev_state : Option String
  state_version : Option Nat
  generationField : Option Nat
  owner_id : String
  instance_name : String
  zone : String
  attempt : Nat
  updated_at : String
  updated_by : String
  reason : String
  history : List HistoryEntry
deriving Repr, DecidableEq

/-- The parsed `heartbeat.json`; `timestamp = ""` models a missing field. -/
structure Heartbeat where
  timestamp : String
deriving Repr, DecidableEq

/-- The parsed `.reconciler_stale_seen` marker; `""` models missing fields. -/
structure StaleMarker where
  timestamp : String
  heartbeat_epoch_at_observation : String
deriving Repr, DecidableEq

/-- The parsed `restart_config.json` — only the fields `_try_restart` reads
for its control flow; the instance-spec fields are consumed opaquely by the
instance adapter (`Env.create_vm`). -/
structure RestartConfig where
  auto_restart_max : Option Nat
  fallback_zones : List String
  zone : Option String
deriving Repr, DecidableEq

/-- The parsed `restart.lock` lease; `ttl_sec` carries the `.get` default. -/
structure RestartLock where
  actor : String
  acquired_at : String
  attempt : Nat
  ttl_sec : Nat
deriving Repr, DecidableEq

/-- The parsed `.owner.lock` claim. -/
structure OwnerLock where
  instance_ : String
  zone : String
deriving Repr, DecidableEq

/-- The parsed legacy `run_manifest.json` fallback. -/
structure Manifest where
  instance_ : String
  zone : String
deriving Repr, DecidableEq

/-- The parsed bucket-global `.reconciler_restart_enabled` feature flag. -/
structure FeatureFlag where
  enabled_at : Option String
deriving Repr, DecidableEq

/-- The per-run slice of the blob store (plus the bucket-global feature
flag).  `none` models "object absent or unparseable" — `_blob_json` returns
`None` in both cases.  Presence-only sentinels are booleans.  `events` is the
append-only event log under `events/`. -/
structure RunStore where
  state_json : Option StateRecord
  heartbeat : Option Heartbeat
  restart_config : Option RestartConfig
  status_txt : Option String
  stale_marker : Option StaleMarker
  drift_repair_disabled : Bool
  stop_file : Bool
  restart_lock : Option RestartLock
  owner_lock : Option OwnerLock
  run_manifest : Option Manifest
  restart_enabled_flag : Option FeatureFlag
  events : List HistoryEntry
deriving Repr, DecidableEq

/-- The environment: wall clock, `_parse_iso` / `_now_iso`, and the compute
API (`_vm_exists`, `_vm_search_by_pattern`, and instance creation, which
returns the created VM's name on success). -/
structure Env where
  now : Nat
  parseIso : String → Option Nat
  formatIso : Nat → String
  vm_exists : String → String → Bool
  vm_search : String → Option (String × String)
  create_vm : String → Option String

/-- Result of a reconcile or restart call: the action string (or `None`),
the updated store, and the names of compute instances created. -/
structure RunResult where
  action : Option String
  store : RunStore
  created : List String
deriving Repr, DecidableEq

/-! ## `_write_state_cas` -/

/-- The base of the version bump in `_write_state_cas`:
`current.get("state_version", current.get("generation", 0))`. -/
def versionBase (current : StateRecord) : Nat :=
  current.state_version.getD (current.generationField.getD 0)

/-- The history bound of `_write_state_cas`: `history[-20:]` applied only
when `len(history) > 20`. -/
def trimHistory (history : List HistoryEntry) : List HistoryEntry :=
  if history.length > 20 then history.drop (history.length - 20) else history

/-- The `{from, to, at, by, reason}` history entry built by
`_write_state_cas`. -/
def cas_entry (env : Env) (st : RunStore) (new_state reason actor : String) :
    HistoryEntry :=
  { fromState := st.state_json.bind (·.state), toState := new_state,
    atTime := env.formatIso env.now, byActor := actor, reason := reason }

/-- The `new_data` dictionary built by `_write_state_cas` (lines 189–201 of
`main.py`): version bumped, identity fields and `attempt` copied, history
appended and trimmed. -/
def cas_new_data (env : Env) (st : RunStore) (new_state reason actor : String) :
    StateRecord :=
  { state := some new_state,
    prev_state := st.state_json.bind (·.state),
    state_version := some ((st.state_json.map versionBase).getD 0 + 1),
    generationField := none,
    owner_id := (st.state_json.map (·.owner_id)).getD "",
    instance_name := (st.state_json.map (·.instance_name)).getD "",
    zone := (st.state_json.map (·.zone)).getD "",
    attempt := (st.state_json.map (·.attempt)).getD 0,
    updated_at := env.formatIso env.now,
    updated_by := actor,
    reason := reason,
    history := trimHistory
      (((st.state_json.map (·.history)).getD []) ++ [cas_entry env st new_state reason actor]) }

/-- `main._write_state_cas`.  Returns the Python boolean together with the
updated store.  With a reliable single-writer store the CAS retry loop always
succeeds on its first iteration, so it is not modelled; the accepted write
also performs the best-effort `status.txt` projection write and the event
append. -/
def write_state_cas (dry_run : Bool) (env : Env) (st : RunStore)
    (new_state reason actor : String) : Bool × RunStore :=
  if dry_run then (true, st)
  else
    let current_state : Option String := st.state_json.bind (·.state)
    if is_terminal (current_state.getD "") then (false, st)
    else if ¬ can_transition current_state new_state actor then (false, st)
    else
      (true, { st with
                 state_json := some (cas_new_data env st new_state reason actor),
                 status_txt := some (status_compat new_state),
                 events := st.events ++ [cas_entry env st new_state reason actor] })

/-! ## `_repair_status_drift` -/

/-- `main._repair_status_drift` for a run whose `state.json` parsed to
`state_data`. -/
def repair_status_drift (dry_run : Bool) (st : RunStore)
    (state_data : StateRecord) : RunStore :=
  let state := state_data.state.getD ""
  if state = "" ∨ state = "RESTARTING" then st
  else
    let expected_status := status_compat state
    let actual_status : Option String := st.status_txt.map (·.trim)
    if actual_status = some expected_status then st
    else if st.drift_repair_disabled then st
    else if dry_run then st
    else { st with status_txt := some expected_status }

/-- The drift-repair phase of `_reconcile_run`: the terminal short-circuit
followed by the guarded call to `_repair_status_drift` (lines 284–290 of
`main.py`). -/
def reconcile_drift_phase (dry_run : Bool) (st : RunStore) : RunStore :=
  let current_state : Option String := st.state_json.bind (·.state)
  if is_terminal (current_state.getD "") then st
  else
    match st.state_json with
    | some state_data => repair_status_drift dry_run st state_data
    | none => st

/-! ## Restart executor helpers -/

/-- `main._is_restart_enabled`: the bucket-global feature flag exists, parses,
and carries a non-null `enabled_at`. -/
def is_restart_enabled (st : RunStore) : Bool :=
  match st.restart_enabled_flag with
  | some flag => flag.enabled_at.isSome
  | none => false

/-- `main._acquire_restart_lock_cas`.  Returns the store with the lease held
on success.  With no concurrent writer the CAS create succeeds whenever the
object is absent, and a stale-lock reclaim (age strictly above the stored
TTL) always wins its delete-then-create race. -/
def acquire_restart_lock (env : Env) (st : RunStore) (attempt : Nat) :
    Option RunStore :=
  let payload : RestartLock :=
    { actor := "reconciler", acquired_at := env.formatIso env.now,
      attempt := attempt, ttl_sec := 300 }
  match st.restart_lock with
  | none => some { st with restart_lock := some payload }
  | some existing =>
    if existing.acquired_at = "" then none
    else
      match env.parseIso existing.acquired_at with
      | some acq_t =>
        if env.now - acq_t > existing.ttl_sec then
          some { st with restart_lock := some payload }
        else none
      | none => none

/-- `main._clear_owner_lock_preconditioned`.  Returns the Python boolean and
the updated store; a missing or unparseable `.owner.lock` is skipped
(`continue`) and the function returns `True` without deleting anything. -/
def clear_owner_lock (env : Env) (st : RunStore) : Bool × RunStore :=
  match st.owner_lock with
  | none => (true, st)
  | some ol =>
    if ol.instance_ ≠ "" ∧ ol.zone ≠ "" ∧ env.vm_exists ol.instance_ ol.zone
    then (false, st)
    else (true, { st with owner_lock := none })

/-- The zone-fallback loop of `_try_restart` step 4: first zone whose
`_create_vm_from_config` call succeeds wins; returns the created VM name and
its zone. -/
def firstCreate (create_vm : String → Option String) :
    List String → Option (String × String)
  | [] => none
  | zone :: rest =>
    match create_vm zone with
    | some vm_name => some (vm_name, zone)
    | none => firstCreate create_vm rest

/-- The `except` block of `_try_restart`: attempt to CAS the state back to
its pre-`RESTARTING` value with reason `restart_rollback` (only when
`state_data` is present), release the restart lease, and report
`restart_failed`. -/
def restart_rollback_path (env : Env) (st : RunStore)
    (state_data : Option StateRecord) : RunResult :=
  let st1 :=
    match state_data with
    | some sd =>
      (write_state_cas false env st (sd.state.getD "ORPHANED")
        "restart_rollback" "reconciler").2
    | none => st
  { action := some "restart_failed",
    store := { st1 with restart_lock := none },
    created := [] }

/-- `main._try_restart`. -/
def try_restart (dry_run : Bool) (env : Env) (st : RunStore)
    (state_data : Option StateRecord) (restart_config : Option RestartConfig) :
    RunResult :=
  if dry_run then { action := none, store := st, created := [] }
  else if ¬ is_restart_enabled st then
    { action := none, store := st, created := [] }
  else
    match restart_config with
    | none => { action := none, store := st, created := [] }
    | some cfg =>
      let current_state : Option String := state_data.bind (·.state)
      if current_state ≠ some "PREEMPTED" ∧ current_state ≠ some "ORPHANED"
      then { action := none, store := st, created := [] }
      else
        let max_restarts := cfg.auto_restart_max.getD 3
        let current_attempt := (state_data.map (·.attempt)).getD 0
        if current_attempt ≥ max_restarts then
          { action := none, store := st, created := [] }
        else if st.stop_file then
          { action := none, store := st, created := [] }
        else
          let new_attempt := current_attempt + 1
          match acquire_restart_lock env st new_attempt with
          | none => { action := none, store := st, created := [] }
          | some st1 =>
            let owner := clear_owner_lock env st1
            if ¬ owner.1 then restart_rollback_path env owner.2 state_data
            else
              let cas :=
                write_state_cas false env owner.2 "RESTARTING"
                  "reconciler_restart" "reconciler"
              if ¬ cas.1 then restart_rollback_path env cas.2 state_data
              else
                let zones :=
                  if cfg.fallback_zones.isEmpty then [cfg.zone.getD "us-east1-c"]
                  else cfg.fallback_zones
                match firstCreate env.create_vm zones with
                | some result =>
                  { action := some "restarted",
                    store := { cas.2 with restart_lock := none },
                    created := [result.1] }
                | none => restart_rollback_path env cas.2 state_data

/-! ## `_reconcile_run` -/

/-- The RESTARTING stuck-state recovery branch of `_reconcile_run`
(lines 293–337), entered when the current state is `RESTARTING`. -/
def restarting_stuck_branch (dry_run : Bool) (env : Env) (st : RunStore)
    (sd : StateRecord) : RunResult :=
  if sd.updated_at = "" then { action := none, store := st, created := [] }
  else
    match env.parseIso sd.updated_at with
    | none => { action := none, store := st, created := [] }
    | some updated_t =>
      if env.now - updated_t > RESTARTING_STUCK_SEC then
        let vm_alive : Bool :=
          sd.instance_name ≠ "" ∧ sd.zone ≠ "" ∧
            env.vm_exists sd.instance_name sd.zone
        let hb_fresh : Bool :=
          match st.heartbeat with
          | some hb =>
            hb.timestamp ≠ "" &&
              match env.parseIso hb.timestamp with
              | some hb_t => decide (env.now - hb_t < HEARTBEAT_STALE_SEC)
              | none => false
          | none => false
        if ¬ vm_alive ∧ ¬ hb_fresh then
          let cas :=
            write_state_cas dry_run env st "ORPHANED"
              "restarting_stuck_recovery" "reconciler"
          let st2 := if dry_run then cas.2 else { cas.2 with restart_lock := none }
          { action := some "restarting_stuck_recovered", store := st2,
            created := [] }
        else { action := none, store := st, created := [] }
      else { action := none, store := st, created := [] }

/-- The confirmed-orphan tail of `_reconcile_run` (lines 449–489): the
`PREEMPTED` short-circuit, the `ORPHANED` transition (or the legacy
bootstrap), the best-effort marker delete, and the hand-off to the restart
executor with the in-memory `state_data` read at the start of the tick. -/
def orphan_confirm (dry_run : Bool) (env : Env) (st : RunStore)
    (state_data : Option StateRecord) (restart_config : Option RestartConfig)
    (current_state : Option String) : RunResult :=
  if current_state = some "PREEMPTED" then
    { action := some "preempted_confirmed", store := st, created := [] }
  else
    let st1 :=
      match state_data with
      | some _ =>
        (write_state_cas dry_run env st "ORPHANED" "stale_heartbeat_vm_gone"
          "reconciler").2
      | none =>
        if dry_run then st
        else
          (write_state_cas dry_run env st "ORPHANED" "legacy_bootstrap_orphaned"
            "reconciler").2
    let st2 := if dry_run then st1 else { st1 with stale_marker := none }
    let restarted := try_restart dry_run env st2 state_data restart_config
    match restarted.action with
    | some a =>
      { action := some a, store := restarted.store, created := restarted.created }
    | none =>
      { action := some "orphaned", store := restarted.store,
        created := restarted.created }

/-- The instance/zone resolution of `_reconcile_run` (lines 420–433 of
`main.py`): take `instance_name`/`zone` from `state.json` and fall back to
the legacy `run_manifest.json` for whichever is empty. -/
def resolve_instance_zone (state_data : Option StateRecord)
    (manifest : Option Manifest) : String × String :=
  let inst0 := (state_data.map (·.instance_name)).getD ""
  let zone0 := (state_data.map (·.zone)).getD ""
  if inst0 = "" ∨ zone0 = "" then
    match manifest with
    | some m =>
      (if inst0 = "" then m.instance_ else inst0,
       if zone0 = "" then m.zone else zone0)
    | none => (inst0, zone0)
  else (inst0, zone0)

/-- `main._reconcile_run`: the per-run decision tree. -/
def reconcile_run (dry_run : Bool) (env : Env) (run_id : String)
    (st0 : RunStore) : RunResult :=
  let state_data := st0.state_json
  let restart_config := st0.restart_config
  let current_state : Option String := state_data.bind (·.state)
  if is_terminal (current_state.getD "") then
    { action := none, store := st0, created := [] }
  else
    let st := reconcile_drift_phase dry_run st0
    if current_state = some "RESTARTING" then
      match state_data with
      | some sd => restarting_stuck_branch dry_run env st sd
      | none => { action := none, store := st, created := [] }
    else
      match st.heartbeat with
      | none => { action := none, store := st, created := [] }
      | some hb =>
        let hb_ts_str := hb.timestamp
        if hb_ts_str = "" then { action := none, store := st, created := [] }
        else
          match env.parseIso hb_ts_str with
          | none => { action := none, store := st, created := [] }
          | some hb_t =>
            if env.now - hb_t < HEARTBEAT_STALE_SEC then
              let st2 :=
                if st.stale_marker.isSome ∧ ¬ dry_run then
                  { st with stale_marker := none }
                else st
              { action := none, store := st2, created := [] }
            else
              match st.stale_marker with
              | none =>
                let marker : StaleMarker :=
                  { timestamp := env.formatIso env.now,
                    heartbeat_epoch_at_observation := hb_ts_str }
                let st2 :=
                  if dry_run then st else { st with stale_marker := some marker }
                { action := some "stale_first_observation", store := st2,
                  created := [] }
              | some marker =>
                let marker_too_fresh : Bool :=
                  match env.parseIso marker.timestamp with
                  | some marker_t =>
                    decide (env.now - marker_t < STALE_MARKER_MIN_AGE_SEC)
                  | none => false
                if marker_too_fresh then
                  { action := none, store := st, created := [] }
                else
                  let marker_hb_epoch := marker.heartbeat_epoch_at_observation
                  if marker_hb_epoch ≠ "" ∧ marker_hb_epoch ≠ hb_ts_str then
                    let st2 :=
                      if dry_run then st else { st with stale_marker := none }
                    { action := none, store := st2, created := [] }
                  else
                    let ids := resolve_instance_zone state_data st.run_manifest
                    if ids.1 ≠ "" ∧ ids.2 ≠ "" then
                      if env.vm_exists ids.1 ids.2 then
                        { action := some "stale_vm_alive", store := st,
                          created := [] }
                      else
                        orphan_confirm dry_run env st state_data restart_config
                          current_state
                    else
                      match env.vm_search run_id with
                      | some _ =>
                        { action := some "stale_vm_found_by_pattern",
                          store := st, created := [] }
                      | none =>
                        orphan_confirm dry_run env st state_data restart_config
                          current_state

/-! ## Shared concrete fixtures (used by witnesses and counterexamples) -/

/-- A run directory with every object absent and every sentinel clear. -/
def emptyStore : RunStore :=
  { state_json := none, heartbeat := none, restart_config := none,
    status_txt := none, stale_marker := none, drift_repair_disabled := false,
    stop_file := false, restart_lock := none, owner_lock := none,
    run_manifest := none, restart_enabled_flag := none, events := [] }

/-- A plain `RUNNING` state record with instance metadata. -/
def runningRec : StateRecord :=
  { state := some "RUNNING", prev_state := none, state_version := some 3,
    generationField := none, owner_id := "vm-1", instance_name := "vm-1",
    zone := "z1", attempt := 0, updated_at := "700", updated_by := "vm",
    reason := "start", history := [] }

/-- A concrete environment: the wall clock reads 800, the parse recognises
the three timestamp strings the fixtures use, no VM exists anywhere, and
instance creation always succeeds. -/
def testEnv : Env :=
  { now := 800,
    parseIso := fun s =>
      if s = "100" then some 100
      else if s = "500" then some 500
      else if s = "700" then some 700
      else none,
    formatIso := fun n => toString n,
    vm_exists := fun _ _ => false, vm_search := fun _ => none,
    create_vm := fun _ => some "vm-new" }

/-! ## Helper lemmas -/

/-- `trimHistory` always leaves at most 20 entries. -/
theorem trimHistory_bound (h : List HistoryEntry) :
    (trimHistory h).length ≤ 20 := by
  unfold trimHistory
  split
  · simp only [List.length_drop]; omega
  · omega

/-- The drift-repair phase touches only `status.txt`. -/
theorem reconcile_drift_phase_shape (dry_run : Bool) (st : RunStore) :
    ∃ o, reconcile_drift_phase dry_run st = { st with status_txt := o } := by
  unfold reconcile_drift_phase repair_status_drift
  dsimp only
  repeat' split
  all_goals exact ⟨_, rfl⟩

/-- Under dry-run the drift-repair phase is a no-op. -/
theorem reconcile_drift_phase_dry (st : RunStore) :
    reconcile_drift_phase true st = st := by
  unfold reconcile_drift_phase repair_status_drift
  dsimp only
  repeat' split
  all_goals simp_all

/-- Under dry-run the CAS writer accepts and writes nothing. -/
theorem write_state_cas_dry (env : Env) (st : RunStore) (n r a : String) :
    write_state_cas true env st n r a = (true, st) := rfl

/-- Under dry-run the restart executor is skipped wholesale. -/
theorem try_restart_dry (env : Env) (st : RunStore) (sd : Option StateRecord)
    (cfg : Option RestartConfig) :
    try_restart true env st sd cfg = { action := none, store := st, created := [] } := rfl

/-- The restart executor declines any run whose in-memory state is neither
`PREEMPTED` nor `ORPHANED`, leaving the store untouched. -/
theorem try_restart_state_not_eligible (dry_run : Bool) (env : Env)
    (st : RunStore) (sd : Option StateRecord) (cfg : Option RestartConfig)
    (h1 : sd.bind (·.state) ≠ some "PREEMPTED")
    (h2 : sd.bind (·.state) ≠ some "ORPHANED") :
    try_restart dry_run env st sd cfg =
      { action := none, store := st, created := [] } := by
  unfold try_restart
  split
  · rfl
  · split
    · rfl
    · split
      · rfl
      · rw [if_pos ⟨h1, h2⟩]

/-- The attempt counter as stored in `state.json` (with the `.get` default 0
used by every reader in `main.py`). -/
def attemptView (st : RunStore) : Nat :=
  (st.state_json.map (·.attempt)).getD 0

/-- The CAS writer copies the stored attempt counter unchanged on every
write, accepted or not, in both modes. -/
theorem attemptView_write_state_cas (dry_run : Bool) (env : Env)
    (st : RunStore) (n r a : String) :
    attemptView (write_state_cas dry_run env st n r a).2 = attemptView st := by
  unfold write_state_cas attemptView
  dsimp only
  repeat' split
  all_goals rfl

/-- The CAS writer never touches the restart lease. -/
theorem write_state_cas_restart_lock (dry_run : Bool) (env : Env)
    (st : RunStore) (n r a : String) :
    (write_state_cas dry_run env st n r a).2.restart_lock = st.restart_lock := by
  unfold write_state_cas
  dsimp only
  repeat' split
  all_goals rfl

/-- The lease payload written by `_acquire_restart_lock_cas`. -/
def restart_lock_payload (env : Env) (attempt : Nat) : RestartLock :=
  { actor := "reconciler", acquired_at := env.formatIso env.now,
    attempt := attempt, ttl_sec := 300 }

/-- A successful restart-lease acquisition only installs the lease payload. -/
theorem acquire_restart_lock_some (env : Env) (st : RunStore) (a : Nat)
    (st1 : RunStore) (h : acquire_restart_lock env st a = some st1) :
    st1 = { st with restart_lock := some (restart_lock_payload env a) } := by
  unfold acquire_restart_lock at h
  dsimp only at h
  repeat' split at h
  all_goals simp_all [restart_lock_payload]

/-- Owner-lock clearance touches only `.owner.lock`. -/
theorem clear_owner_lock_snd (env : Env) (st : RunStore) :
    ∃ o, (clear_owner_lock env st).2 = { st with owner_lock := o } := by
  unfold clear_owner_lock
  repeat' split
  all_goals exact ⟨_, rfl⟩

/-- The rollback path of the restart executor copies the stored attempt
counter unchanged. -/
theorem restart_rollback_path_attempt (env : Env) (st : RunStore)
    (sd : Option StateRecord) :
    attemptView (restart_rollback_path env st sd).store = attemptView st := by
  unfold restart_rollback_path
  dsimp only
  cases sd with
  | none => rfl
  | some rec => exact attemptView_write_state_cas false env st (rec.state.getD "ORPHANED") "restart_rollback" "reconciler"

/-- Owner-lock clearance copies the stored attempt counter unchanged. -/
theorem attemptView_clear_owner_lock (env : Env) (st : RunStore) :
    attemptView (clear_owner_lock env st).2 = attemptView st := by
  obtain ⟨o, ho⟩ := clear_owner_lock_snd env st
  rw [ho]
  rfl

/-- Installing or releasing the restart lease leaves the stored attempt
counter as it was. -/
theorem attemptView_set_restart_lock (st : RunStore) (o : Option RestartLock) :
    attemptView { st with restart_lock := o } = attemptView st := rfl

/-- The restart executor copies the stored attempt counter unchanged on
every path, including a fully successful restart. -/
theorem attemptView_try_restart (dry_run : Bool) (env : Env) (st : RunStore)
    (sd : Option StateRecord) (cfg : Option RestartConfig) :
    attemptView (try_restart dry_run env st sd cfg).store = attemptView st := by
  unfold try_restart
  dsimp only
  cases dry_run with
  | true => rfl
  | false =>
    by_cases hen : is_restart_enabled st
    case neg => simp [hen]
    cases cfg with
    | none => simp [hen]
    | some c =>
      by_cases hst : (sd.bind (·.state)) ≠ some "PREEMPTED" ∧
          (sd.bind (·.state)) ≠ some "ORPHANED"
      case pos => simp [hen, hst]
      by_cases hmax : (sd.map (·.attempt)).getD 0 ≥ c.auto_restart_max.getD 3
      case pos => simp [hen, hst, hmax]
      by_cases hstop : st.stop_file = true
      case pos => simp [hen, hst, hmax, hstop]
      simp only [hen, hst, hmax, hstop, not_true, not_false_iff, if_true,
        if_false, ite_true, ite_false, Bool.false_eq_true, decide_True,
        decide_False]
      rcases hacq : acquire_restart_lock env st ((sd.map (·.attempt)).getD 0 + 1)
        with _ | st1
      · simp [hacq]
      · have hview1 : attemptView st1 = attemptView st := by
          rw [acquire_restart_lock_some env st _ st1 hacq]
          rfl
        simp only [hacq]
        by_cases howner : (clear_owner_lock env st1).1 = true
        · by_cases hcas : (write_state_cas false env (clear_owner_lock env st1).2
              "RESTARTING" "reconciler_restart" "reconciler").1 = true
          · rcases hcre : firstCreate env.create_vm
                (if c.fallback_zones.isEmpty then [c.zone.getD "us-east1-c"]
                 else c.fallback_zones) with _ | pair
            · simp [howner, hcas, hcre]
              rw [restart_rollback_path_attempt, attemptView_write_state_cas,
                attemptView_clear_owner_lock, hview1]
            · simp [howner, hcas, hcre]
              show attemptView { (write_state_cas false env
                  (clear_owner_lock env st1).2 "RESTARTING" "reconciler_restart"
                  "reconciler").2 with restart_lock := none } = attemptView st
              rw [attemptView_set_restart_lock, attemptView_write_state_cas,
                attemptView_clear_owner_lock, hview1]
          · simp [howner, hcas]
            rw [restart_rollback_path_attempt, attemptView_write_state_cas,
              attemptView_clear_owner_lock, hview1]
        · simp [howner]
          rw [restart_rollback_path_attempt, attemptView_clear_owner_lock,
            hview1]

/-- An accepted live write installs exactly the `new_data` record. -/
theorem write_state_cas_accepted (env : Env) (st : RunStore) (n r a : String)
    (h : (write_state_cas false env st n r a).1 = true) :
    (write_state_cas false env st n r a).2.state_json
      = some (cas_new_data env st n r a) := by
  unfold write_state_cas at h ⊢
  by_cases hterm : is_terminal ((st.state_json.bind (·.state)).getD "") = true
  · simp [hterm] at h
  · by_cases hcan : can_transition (st.state_json.bind (·.state)) n a = true
    · simp [hterm, hcan]
    · simp [hterm, hcan] at h

/-- An `ORPHANED` state record over the same run metadata. -/
def orphanedRec : StateRecord := { runningRec with state := some "ORPHANED" }

/-- A feature flag with a non-null `enabled_at`. -/
def enabledFlag : FeatureFlag := { enabled_at := some "2026-02-28T12:00:00Z" }

/-- A restart configuration permitting three attempts in one zone. -/
def basicConfig : RestartConfig :=
  { auto_restart_max := some 3, fallback_zones := ["z1"], zone := none }

/-! ## Claim theorems -/

/-- Claim C4: for a run whose `state.json` is terminal, the CAS writer
rejects every transition for every actor without writing, and a live
reconcile tick returns no action and leaves the store untouched, so repeated
invocations are idempotent. -/
theorem c4_terminal_precedence (env : Env) (st : RunStore) (cur : StateRecord)
    (s : String) (hsj : st.state_json = some cur) (hst : cur.state = some s)
    (hterm : is_terminal s = true) :
    (∀ new_state reason actor,
        write_state_cas false env st new_state reason actor = (false, st)) ∧
    (∀ run_id, reconcile_run false env run_id st =
        { action := none, store := st, created := [] }) := by
  constructor
  · intro ns r a
    simp [write_state_cas, hsj, hst, hterm]
  · intro rid
    simp [reconcile_run, hsj, hst, hterm]

/-- Witness for C4 at a concrete `COMPLETE` run. -/
theorem c4_witness :
    (write_state_cas false testEnv
        { emptyStore with state_json := some { runningRec with state := some "COMPLETE" } }
        "RUNNING" "retry" "operator"
      = (false, { emptyStore with state_json := some { runningRec with state := some "COMPLETE" } })) ∧
    (reconcile_run false testEnv "run-1"
        { emptyStore with state_json := some { runningRec with state := some "COMPLETE" } }
      = { action := none,
          store := { emptyStore with state_json := some { runningRec with state := some "COMPLETE" } },
          created := [] }) := by
  have h := c4_terminal_precedence testEnv
    { emptyStore with state_json := some { runningRec with state := some "COMPLETE" } }
    { runningRec with state := some "COMPLETE" } "COMPLETE" rfl rfl (by decide)
  exact ⟨h.1 "RUNNING" "retry" "operator", h.2 "run-1"⟩

/-- Claim C5: every accepted live state write strictly increases
`state_version` and keeps the history at no more than 20 entries. -/
theorem c5_version_monotone_history_bounded (env : Env) (st : RunStore)
    (cur : StateRecord) (v : Nat) (new_state reason actor : String)
    (hsj : st.state_json = some cur) (hver : cur.state_version = some v)
    (hacc : (write_state_cas false env st new_state reason actor).1 = true) :
    ∃ rec, (write_state_cas false env st new_state reason actor).2.state_json
        = some rec ∧
      rec.state_version = some (v + 1) ∧ v < v + 1 ∧
      rec.history.length ≤ 20 := by
  refine ⟨cas_new_data env st new_state reason actor,
    write_state_cas_accepted env st new_state reason actor hacc, ?_, ?_, ?_⟩
  · simp [cas_new_data, hsj, versionBase, hver]
  · omega
  · exact trimHistory_bound _

/-- Witness for C5 at a concrete accepted `RUNNING → ORPHANED` write. -/
theorem c5_witness :
    ∃ rec, (write_state_cas false testEnv
        { emptyStore with state_json := some runningRec }
        "ORPHANED" "stale_heartbeat_vm_gone" "reconciler").2.state_json
        = some rec ∧
      rec.state_version = some (3 + 1) ∧ 3 < 3 + 1 ∧
      rec.history.length ≤ 20 :=
  c5_version_monotone_history_bounded testEnv
    { emptyStore with state_json := some runningRec } runningRec 3
    "ORPHANED" "stale_heartbeat_vm_gone" "reconciler" rfl rfl (by decide)

/-- Claim C3 (amended): the reconciler never changes the attempt counter
stored in `state.json` — the CAS writer copies it unchanged on every write
(including the `RESTARTING` write of a fully successful restart), and the
restart executor leaves it unchanged on every path. -/
theorem c3_amended_attempt_never_changed (dry_run : Bool) (env : Env)
    (st : RunStore) (n r a : String) (sd : Option StateRecord)
    (cfg : Option RestartConfig) :
    attemptView (write_state_cas dry_run env st n r a).2 = attemptView st ∧
    attemptView (try_restart dry_run env st sd cfg).store = attemptView st :=
  ⟨attemptView_write_state_cas dry_run env st n r a,
   attemptView_try_restart dry_run env st sd cfg⟩

/-- Counterexample for C3 as stated: a fully successful restart — the
`RESTARTING` transition is accepted and an instance is created — still
leaves the stored attempt at 0, so the counter is not incremented on
success. -/
theorem c3_counterexample :
    (try_restart false testEnv
        { emptyStore with state_json := some orphanedRec,
                          restart_config := some basicConfig,
                          restart_enabled_flag := some enabledFlag }
        (some orphanedRec) (some basicConfig)).action = some "restarted" ∧
    (try_restart false testEnv
        { emptyStore with state_json := some orphanedRec,
                          restart_config := some basicConfig,
                          restart_enabled_flag := some enabledFlag }
        (some orphanedRec) (some basicConfig)).created = ["vm-new"] ∧
    (try_restart false testEnv
        { emptyStore with state_json := some orphanedRec,
                          restart_config := some basicConfig,
                          restart_enabled_flag := some enabledFlag }
        (some orphanedRec) (some basicConfig)).store.state_json.map (·.state)
      = some (some "RESTARTING") ∧
    (try_restart false testEnv
        { emptyStore with state_json := some orphanedRec,
                          restart_config := some basicConfig,
                          restart_enabled_flag := some enabledFlag }
        (some orphanedRec) (some basicConfig)).store.state_json.map (·.attempt)
      = some 0 := by
  refine ⟨?_, ?_, ?_, ?_⟩ <;> rfl

/-- The amended drift-repair write condition, stated from the spec's words
with the two corrections the code forces: the run's state must also be
non-terminal (the terminal short-circuit precedes the repair), and a missing
`status.txt` counts as drifted (the code creates the file) instead of being
excluded. -/
def drift_repair_would_write (st : RunStore) : Bool :=
  match st.state_json with
  | some sd =>
    let s := sd.state.getD ""
    !(is_terminal s) && !(s == "") && !(s == "RESTARTING") &&
      !(st.status_txt.map (·.trim) == some (status_compat s)) &&
      !st.drift_repair_disabled
  | none => false

/-- Claim C2 (amended): during a live reconcile tick, the drift-repair phase
overwrites `status.txt` with `status_compat(state)` exactly when the state is
set, non-terminal and not `RESTARTING`, the trimmed `status.txt` content
differs from the projection or the file is absent, and
`.drift_repair_disabled` is absent; otherwise the store is untouched. -/
theorem c2_amended_drift_repair (st : RunStore) :
    reconcile_drift_phase false st =
      if drift_repair_would_write st then
        { st with status_txt := some (status_compat ((st.state_json.bind (·.state)).getD "")) }
      else st := by
  unfold reconcile_drift_phase repair_status_drift drift_repair_would_write
  dsimp only
  rcases hsj : st.state_json with _ | sd
  · simp [hsj]
  · by_cases ht : is_terminal (sd.state.getD "") = true <;>
    by_cases h1 : sd.state.getD "" = "" <;>
    by_cases h2 : sd.state.getD "" = "RESTARTING" <;>
    by_cases h3 : Option.map (fun x => x.trim) st.status_txt
        = some (status_compat (sd.state.getD "")) <;>
    by_cases h4 : st.drift_repair_disabled = true <;>
    simp [hsj, ht, h1, h2, h3, h4]

/-- Counterexample for C2 as stated: with `state.json` at `RUNNING` and no
`status.txt` at all, a live reconcile tick creates `status.txt` with the
projection `RUNNING`, contradicting "when status.txt does not exist,
status.txt is left unchanged". -/
theorem c2_counterexample :
    ({ emptyStore with state_json := some runningRec } : RunStore).status_txt
        = none ∧
    (reconcile_run false testEnv "run-1"
        { emptyStore with state_json := some runningRec }).store.status_txt
      = some "RUNNING" := by
  exact ⟨rfl, rfl⟩

/-- Claim C7: the restart executor returns none and leaves the store
untouched (no writes, deletes, or instance creations) whenever any
precondition fails: restart feature disabled, missing restart config, state
not in {PREEMPTED, ORPHANED}, attempts exhausted, or `.stop` present. -/
theorem c7_restart_preconditions (dry_run : Bool) (env : Env) (st : RunStore)
    (sd : Option StateRecord) (cfg : Option RestartConfig)
    (hfail : is_restart_enabled st = false ∨ cfg = none ∨
      (sd.bind (·.state) ≠ some "PREEMPTED" ∧ sd.bind (·.state) ≠ some "ORPHANED") ∨
      (∃ c, cfg = some c ∧ c.auto_restart_max.getD 3 ≤ (sd.map (·.attempt)).getD 0) ∨
      st.stop_file = true) :
    try_restart dry_run env st sd cfg =
      { action := none, store := st, created := [] } := by
  unfold try_restart
  dsimp only
  cases dry_run with
  | true => rfl
  | false =>
    by_cases hen : is_restart_enabled st = true
    case neg => simp [hen]
    cases cfg with
    | none => simp [hen]
    | some c =>
      by_cases hst : (sd.bind (·.state)) ≠ some "PREEMPTED" ∧
          (sd.bind (·.state)) ≠ some "ORPHANED"
      case pos => simp [hen, hst]
      by_cases hmax : (sd.map (·.attempt)).getD 0 ≥ c.auto_restart_max.getD 3
      case pos => simp [hen, hst, hmax]
      by_cases hstop : st.stop_file = true
      case pos => simp [hen, hst, hmax, hstop]
      exfalso
      rcases hfail with h | h | h | ⟨c2, hc2, hle⟩ | h
      · rw [hen] at h
        exact Bool.noConfusion h
      · exact Option.noConfusion h
      · exact hst h
      · have hcc : c = c2 := by injection hc2
        subst hcc
        exact hmax hle
      · exact hstop h

/-- Witness for C7: a concrete ORPHANED run with restart config present but
the feature flag absent. -/
theorem c7_witness :
    try_restart false testEnv
        { emptyStore with state_json := some orphanedRec,
                          restart_config := some basicConfig }
        (some orphanedRec) (some basicConfig) =
      { action := none,
        store := { emptyStore with state_json := some orphanedRec,
                                   restart_config := some basicConfig },
        created := [] } :=
  c7_restart_preconditions false testEnv
    { emptyStore with state_json := some orphanedRec,
                      restart_config := some basicConfig }
    (some orphanedRec) (some basicConfig) (Or.inl (by decide))

/-- The RESTARTING stuck branch is a store no-op under dry-run. -/
theorem restarting_stuck_branch_dry_store (env : Env) (st : RunStore)
    (sd : StateRecord) :
    (restarting_stuck_branch true env st sd).store = st := by
  unfold restarting_stuck_branch
  dsimp only
  simp only [write_state_cas_dry, reduceIte]
  repeat' split
  all_goals rfl

/-- The RESTARTING stuck branch creates no instances. -/
theorem restarting_stuck_branch_created (dry_run : Bool) (env : Env)
    (st : RunStore) (sd : StateRecord) :
    (restarting_stuck_branch dry_run env st sd).created = [] := by
  unfold restarting_stuck_branch
  dsimp only
  repeat' split
  all_goals rfl

/-- The confirmed-orphan tail is a store no-op under dry-run. -/
theorem orphan_confirm_dry_store (env : Env) (st : RunStore)
    (sd : Option StateRecord) (cfg : Option RestartConfig)
    (cs : Option String) :
    (orphan_confirm true env st sd cfg cs).store = st := by
  unfold orphan_confirm
  dsimp only
  rcases sd with _ | rec <;>
    by_cases hp : cs = some "PREEMPTED" <;>
      simp [hp, write_state_cas_dry, try_restart_dry]

/-- The confirmed-orphan tail creates no instances under dry-run. -/
theorem orphan_confirm_dry_created (env : Env) (st : RunStore)
    (sd : Option StateRecord) (cfg : Option RestartConfig)
    (cs : Option String) :
    (orphan_confirm true env st sd cfg cs).created = [] := by
  unfold orphan_confirm
  dsimp only
  rcases sd with _ | rec <;>
    by_cases hp : cs = some "PREEMPTED" <;>
      simp [hp, write_state_cas_dry, try_restart_dry]

/-- Claim C9: under the process-wide dry-run flag, a reconcile tick performs
no store mutation at all and creates no instance, for every input, while the
decision tree still runs over the read snapshot. -/
theorem c9_dry_run_frame (env : Env) (run_id : String) (st : RunStore) :
    (reconcile_run true env run_id st).store = st ∧
    (reconcile_run true env run_id st).created = [] := by
  unfold reconcile_run
  rw [reconcile_drift_phase_dry]
  dsimp only
  simp only [not_true, and_false, if_false, ite_false, reduceIte]
  constructor
  · repeat' split
    all_goals first
      | rfl
      | simp [restarting_stuck_branch_dry_store, orphan_confirm_dry_store]
  · repeat' split
    all_goals first
      | rfl
      | simp [restarting_stuck_branch_created, orphan_confirm_dry_created]

/-- The rollback path always releases the restart lease. -/
theorem restart_rollback_path_lock (env : Env) (st : RunStore)
    (sd : Option StateRecord) :
    (restart_rollback_path env st sd).store.restart_lock = none := rfl

/-- With the lease object absent, the CAS create succeeds and installs the
payload. -/
theorem acquire_restart_lock_none (env : Env) (st : RunStore) (a : Nat)
    (h : st.restart_lock = none) :
    acquire_restart_lock env st a =
      some { st with restart_lock := some (restart_lock_payload env a) } := by
  unfold acquire_restart_lock restart_lock_payload
  rw [h]

/-- Whenever the executor itself created the restart lease (the lease was
absent beforehand), every return path of `try_restart` leaves the store with
no `restart.lock`. -/
theorem try_restart_lock_released (dry_run : Bool) (env : Env) (st : RunStore)
    (sd : Option StateRecord) (cfg : Option RestartConfig)
    (h : st.restart_lock = none) :
    (try_restart dry_run env st sd cfg).store.restart_lock = none := by
  unfold try_restart
  dsimp only
  cases dry_run with
  | true => exact h
  | false =>
    by_cases hen : is_restart_enabled st = true
    case neg => simp [hen, h]
    cases cfg with
    | none => simp [hen, h]
    | some c =>
      by_cases hst : (sd.bind (·.state)) ≠ some "PREEMPTED" ∧
          (sd.bind (·.state)) ≠ some "ORPHANED"
      case pos => simp [hen, hst, h]
      by_cases hmax : (sd.map (·.attempt)).getD 0 ≥ c.auto_restart_max.getD 3
      case pos => simp [hen, hst, hmax, h]
      by_cases hstop : st.stop_file = true
      case pos => simp [hen, hst, hmax, hstop, h]
      simp only [hen, hst, hmax, hstop, not_true, not_false_iff, if_true,
        if_false, ite_true, ite_false, Bool.false_eq_true, decide_True,
        decide_False]
      rw [acquire_restart_lock_none env st _ h]
      by_cases howner : (clear_owner_lock env
          { st with restart_lock := some (restart_lock_payload env
              ((sd.map (·.attempt)).getD 0 + 1)) }).1 = true
      · by_cases hcas : (write_state_cas false env (clear_owner_lock env
            { st with restart_lock := some (restart_lock_payload env
                ((sd.map (·.attempt)).getD 0 + 1)) }).2
            "RESTARTING" "reconciler_restart" "reconciler").1 = true
        · rcases hcre : firstCreate env.create_vm
              (if c.fallback_zones.isEmpty then [c.zone.getD "us-east1-c"]
               else c.fallback_zones) with _ | pair
          · simp [howner, hcas, hcre, restart_rollback_path_lock]
          · simp [howner, hcas, hcre]
        · simp [howner, hcas, restart_rollback_path_lock]
      · simp [howner, restart_rollback_path_lock]

/-- Claim C8: the executor never leaves behind a restart.lock it created
(every return path releases the lease), and when the owner lock's named
instance still exists it aborts with `restart_failed`: the rollback write is
attempted but rejected by the transition table (ORPHANED → ORPHANED is not an
edge), so the state record is exactly as before and in particular never
`RESTARTING`. -/
theorem c8_owner_abort_and_lease_release (env : Env) (st : RunStore)
    (rec : StateRecord) (c : RestartConfig) (ol : OwnerLock)
    (hlock : st.restart_lock = none)
    (hsj : st.state_json = some rec)
    (hsd : rec.state = some "ORPHANED")
    (hol : st.owner_lock = some ol)
    (hinst : ol.instance_ ≠ "") (hzone : ol.zone ≠ "")
    (halive : env.vm_exists ol.instance_ ol.zone = true)
    (hen : is_restart_enabled st = true)
    (hatt : rec.attempt < c.auto_restart_max.getD 3)
    (hstop : st.stop_file = false) :
    (∀ (d : Bool) (st2 : RunStore) (sd2 : Option StateRecord)
        (cfg2 : Option RestartConfig), st2.restart_lock = none →
        (try_restart d env st2 sd2 cfg2).store.restart_lock = none) ∧
    (try_restart false env st (some rec) (some c)).action
      = some "restart_failed" ∧
    (try_restart false env st (some rec) (some c)).store.state_json
      = st.state_json ∧
    (try_restart false env st (some rec) (some c)).store.restart_lock = none ∧
    (try_restart false env st (some rec) (some c)).created = [] := by
  refine ⟨fun d st2 sd2 cfg2 h => try_restart_lock_released d env st2 sd2 cfg2 h,
    ?_⟩
  have hclear : ∀ y : RunStore, y.owner_lock = some ol →
      clear_owner_lock env y = (false, y) := by
    intro y hy
    unfold clear_owner_lock
    rw [hy]
    dsimp only
    rw [if_pos ⟨hinst, hzone, halive⟩]
  have hres : try_restart false env st (some rec) (some c) =
      restart_rollback_path env
        { st with restart_lock := some (restart_lock_payload env (rec.attempt + 1)) }
        (some rec) := by
    unfold try_restart
    dsimp only
    have hnst : ¬(((some rec : Option StateRecord).bind (·.state))
          ≠ some "PREEMPTED" ∧
        ((some rec : Option StateRecord).bind (·.state)) ≠ some "ORPHANED") := by
      simp [hsd]
    have hnmax : ¬(((some rec : Option StateRecord).map (·.attempt)).getD 0
        ≥ c.auto_restart_max.getD 3) := by
      show ¬ rec.attempt ≥ c.auto_restart_max.getD 3
      omega
    simp only [hen, hnst, hnmax, hstop, not_true, not_false_iff, if_true,
      if_false, ite_true, ite_false, Bool.false_eq_true, decide_True,
      decide_False]
    rw [acquire_restart_lock_none env st _ hlock]
    dsimp only
    simp only [hclear, hol]
    rw [if_pos (by simp)]
    simp only [hstop]
    rfl
  rw [hres]
  unfold restart_rollback_path
  dsimp only
  have hwrite : write_state_cas false env
      { st with restart_lock := some (restart_lock_payload env (rec.attempt + 1)) }
      (rec.state.getD "ORPHANED") "restart_rollback" "reconciler"
      = (false, { st with restart_lock := some (restart_lock_payload env (rec.attempt + 1)) }) := by
    unfold write_state_cas
    rw [hsd]
    simp [hsj, hsd]
    decide
  rw [hwrite]
  exact ⟨rfl, by rw [hsj], rfl, rfl⟩

/-- Witness for C8 at a concrete ORPHANED run whose owner VM is alive. -/
theorem c8_witness :
    (∀ (d : Bool) (st2 : RunStore) (sd2 : Option StateRecord)
        (cfg2 : Option RestartConfig), st2.restart_lock = none →
        (try_restart d { testEnv with vm_exists := fun i _ => i == "owner-vm" }
          st2 sd2 cfg2).store.restart_lock = none) ∧
    (try_restart false { testEnv with vm_exists := fun i _ => i == "owner-vm" }
        { emptyStore with state_json := some orphanedRec,
                          restart_config := some basicConfig,
                          restart_enabled_flag := some enabledFlag,
                          owner_lock := some { instance_ := "owner-vm", zone := "z1" } }
        (some orphanedRec) (some basicConfig)).action = some "restart_failed" ∧
    (try_restart false { testEnv with vm_exists := fun i _ => i == "owner-vm" }
        { emptyStore with state_json := some orphanedRec,
                          restart_config := some basicConfig,
                          restart_enabled_flag := some enabledFlag,
                          owner_lock := some { instance_ := "owner-vm", zone := "z1" } }
        (some orphanedRec) (some basicConfig)).store.state_json
      = ({ emptyStore with state_json := some orphanedRec,
                           restart_config := some basicConfig,
                           restart_enabled_flag := some enabledFlag,
                           owner_lock := some { instance_ := "owner-vm", zone := "z1" } } : RunStore).state_json ∧
    (try_restart false { testEnv with vm_exists := fun i _ => i == "owner-vm" }
        { emptyStore with state_json := some orphanedRec,
                          restart_config := some basicConfig,
                          restart_enabled_flag := some enabledFlag,
                          owner_lock := some { instance_ := "owner-vm", zone := "z1" } }
        (some orphanedRec) (some basicConfig)).store.restart_lock = none ∧
    (try_restart false { testEnv with vm_exists := fun i _ => i == "owner-vm" }
        { emptyStore with state_json := some orphanedRec,
                          restart_config := some basicConfig,
                          restart_enabled_flag := some enabledFlag,
                          owner_lock := some { instance_ := "owner-vm", zone := "z1" } }
        (some orphanedRec) (some basicConfig)).created = [] :=
  c8_owner_abort_and_lease_release
    { testEnv with vm_exists := fun i _ => i == "owner-vm" }
    { emptyStore with state_json := some orphanedRec,
                      restart_config := some basicConfig,
                      restart_enabled_flag := some enabledFlag,
                      owner_lock := some { instance_ := "owner-vm", zone := "z1" } }
    orphanedRec basicConfig { instance_ := "owner-vm", zone := "z1" }
    rfl rfl rfl rfl (by decide) (by decide) (by decide) (by decide)
    (by decide) rfl

/-- An accepted live write, spelled as a store equation. -/
theorem write_state_cas_accepts (env : Env) (st : RunStore) (n r a : String)
    (hterm : is_terminal ((st.state_json.bind (·.state)).getD "") = false)
    (hcan : can_transition (st.state_json.bind (·.state)) n a = true) :
    write_state_cas false env st n r a =
      (true, { st with state_json := some (cas_new_data env st n r a),
                       status_txt := some (status_compat n),
                       events := st.events ++ [cas_entry env st n r a] }) := by
  unfold write_state_cas
  simp [hterm, hcan]

/-- With instance metadata present in `state.json`, the manifest fallback is
not consulted. -/
theorem resolve_instance_zone_from_state (cur : StateRecord)
    (manifest : Option Manifest) (hinst : cur.instance_name ≠ "")
    (hzone : cur.zone ≠ "") :
    resolve_instance_zone (some cur) manifest
      = (cur.instance_name, cur.zone) := by
  unfold resolve_instance_zone
  dsimp only
  rw [if_neg (by simp [hinst, hzone])]
  rfl

/-- The full confirmed-orphan path of a live reconcile tick, from a RUNNING
record with a stale heartbeat, a matured matching marker, and the VM
confirmed gone: the `ORPHANED` transition is written over the drift-repaired
store, the marker is deleted, the executor declines (it still sees RUNNING),
and the tick reports `orphaned`. -/
theorem reconcile_confirm_orphan_from_running (env : Env) (run_id : String)
    (st : RunStore) (cur : StateRecord) (hb : Heartbeat) (m : StaleMarker)
    (hb_t m_t : Nat)
    (hsj : st.state_json = some cur)
    (hst : cur.state = some "RUNNING")
    (hhb : st.heartbeat = some hb)
    (hts : hb.timestamp ≠ "")
    (hpt : env.parseIso hb.timestamp = some hb_t)
    (hstale : HEARTBEAT_STALE_SEC ≤ env.now - hb_t)
    (hm : st.stale_marker = some m)
    (hmt : env.parseIso m.timestamp = some m_t)
    (hmage : STALE_MARKER_MIN_AGE_SEC ≤ env.now - m_t)
    (hep : m.heartbeat_epoch_at_observation = hb.timestamp)
    (hinst : cur.instance_name ≠ "")
    (hzone : cur.zone ≠ "")
    (hvm : env.vm_exists cur.instance_name cur.zone = false) :
    reconcile_run false env run_id st =
      { action := some "orphaned",
        store := { (write_state_cas false env (reconcile_drift_phase false st) "ORPHANED" "stale_heartbeat_vm_gone" "reconciler").2 with stale_marker := none },
        created := [] } := by
  obtain ⟨o, ho⟩ := reconcile_drift_phase_shape false st
  have hnotfresh : ¬ (env.now - hb_t < HEARTBEAT_STALE_SEC) := by omega
  have hnottoofresh : ¬ (env.now - m_t < STALE_MARKER_MIN_AGE_SEC) := by omega
  have hbind : (st.state_json.bind fun x => x.state) = some "RUNNING" := by
    rw [hsj]; exact hst
  unfold reconcile_run
  dsimp only
  rw [hbind]
  rw [if_neg (by decide : ¬ is_terminal ((some "RUNNING" : Option String).getD "") = true)]
  rw [if_neg (by decide : ¬ ((some "RUNNING" : Option String) = some "RESTARTING"))]
  rw [ho]
  dsimp only
  rw [hhb]
  dsimp only
  rw [if_neg hts]
  rw [hpt]
  dsimp only
  rw [if_neg hnotfresh]
  rw [hm]
  dsimp only
  rw [hmt]
  dsimp only
  rw [decide_eq_false hnottoofresh]
  rw [if_neg (by simp : ¬ ((false : Bool) = true))]
  rw [hep]
  rw [if_neg (by simp : ¬ (hb.timestamp ≠ "" ∧ hb.timestamp ≠ hb.timestamp))]
  rw [hsj]
  rw [resolve_instance_zone_from_state cur st.run_manifest hinst hzone]
  dsimp only
  rw [if_pos ⟨hinst, hzone⟩]
  rw [hvm]
  rw [if_neg (by simp : ¬ ((false : Bool) = true))]
  unfold orphan_confirm
  dsimp only
  rw [if_neg (by decide : ¬ ((some "RUNNING" : Option String) = some "PREEMPTED"))]
  rw [try_restart_state_not_eligible false env _ (some cur) _
    (by simp [hst]) (by simp [hst])]
  rw [if_neg (by simp : ¬ ((false : Bool) = true))]

/-- Claim C1: for a RUNNING run with a stale heartbeat, a matured stale
marker whose recorded epoch equals the current heartbeat timestamp, and the
VM confirmed gone, a live reconcile writes state `ORPHANED` with reason
`stale_heartbeat_vm_gone` and deletes the `.reconciler_stale_seen` marker. -/
theorem c1_confirm_orphan (env : Env) (run_id : String) (st : RunStore)
    (cur : StateRecord) (hb : Heartbeat) (m : StaleMarker) (hb_t m_t : Nat)
    (hsj : st.state_json = some cur)
    (hst : cur.state = some "RUNNING")
    (hhb : st.heartbeat = some hb)
    (hts : hb.timestamp ≠ "")
    (hpt : env.parseIso hb.timestamp = some hb_t)
    (hstale : HEARTBEAT_STALE_SEC ≤ env.now - hb_t)
    (hm : st.stale_marker = some m)
    (hmt : env.parseIso m.timestamp = some m_t)
    (hmage : STALE_MARKER_MIN_AGE_SEC ≤ env.now - m_t)
    (hep : m.heartbeat_epoch_at_observation = hb.timestamp)
    (hinst : cur.instance_name ≠ "")
    (hzone : cur.zone ≠ "")
    (hvm : env.vm_exists cur.instance_name cur.zone = false) :
    ∃ rec2, (reconcile_run false env run_id st).store.state_json = some rec2 ∧
      rec2.state = some "ORPHANED" ∧
      rec2.reason = "stale_heartbeat_vm_gone" ∧
      rec2.updated_by = "reconciler" ∧
      (reconcile_run false env run_id st).store.stale_marker = none := by
  rw [reconcile_confirm_orphan_from_running env run_id st cur hb m hb_t m_t
    hsj hst hhb hts hpt hstale hm hmt hmage hep hinst hzone hvm]
  obtain ⟨o, ho⟩ := reconcile_drift_phase_shape false st
  rw [ho]
  have hbind : (st.state_json.bind fun x => x.state) = some "RUNNING" := by
    rw [hsj]; exact hst
  have hterm2 : is_terminal
      ((({ st with status_txt := o } : RunStore).state_json.bind (·.state)).getD "")
      = false := by
    show is_terminal ((st.state_json.bind fun x => x.state).getD "") = false
    rw [hbind]
    rfl
  have hcan2 : can_transition
      (({ st with status_txt := o } : RunStore).state_json.bind (·.state))
      "ORPHANED" "reconciler" = true := by
    show can_transition (st.state_json.bind fun x => x.state) "ORPHANED" "reconciler" = true
    rw [hbind]
    rfl
  rw [write_state_cas_accepts env { st with status_txt := o } "ORPHANED"
    "stale_heartbeat_vm_gone" "reconciler" hterm2 hcan2]
  exact ⟨_, rfl, rfl, rfl, rfl, rfl⟩

/-- Witness for C1: a concrete RUNNING run, heartbeat 700 s stale, marker
300 s old with matching epoch, VM gone. -/
theorem c1_witness :
    ∃ rec2, (reconcile_run false testEnv "run-1"
        { emptyStore with state_json := some runningRec,
                          heartbeat := some { timestamp := "100" },
                          stale_marker := some { timestamp := "500", heartbeat_epoch_at_observation := "100" } }).store.state_json
        = some rec2 ∧
      rec2.state = some "ORPHANED" ∧
      rec2.reason = "stale_heartbeat_vm_gone" ∧
      rec2.updated_by = "reconciler" ∧
      (reconcile_run false testEnv "run-1"
        { emptyStore with state_json := some runningRec,
                          heartbeat := some { timestamp := "100" },
                          stale_marker := some { timestamp := "500", heartbeat_epoch_at_observation := "100" } }).store.stale_marker
        = none :=
  c1_confirm_orphan testEnv "run-1"
    { emptyStore with state_json := some runningRec,
                      heartbeat := some { timestamp := "100" },
                      stale_marker := some { timestamp := "500", heartbeat_epoch_at_observation := "100" } }
    runningRec { timestamp := "100" }
    { timestamp := "500", heartbeat_epoch_at_observation := "100" } 100 500
    rfl rfl rfl (by decide) (by decide) (by decide) rfl (by decide) (by decide)
    rfl (by decide) (by decide) rfl

/-- Claim C10: when the orphan is confirmed in the same tick that read state
RUNNING, the executor is handed the pre-transition in-memory record, its
state gate sees RUNNING and returns none (for every store and config), so
the tick returns `orphaned` with no instance created even though every
restart precondition holds, and the stored state is ORPHANED only for later
invocations to act on. -/
theorem c10_restart_deferred_to_next_tick (env : Env) (run_id : String)
    (st : RunStore) (cur : StateRecord) (hb : Heartbeat) (m : StaleMarker)
    (hb_t m_t : Nat) (c : RestartConfig)
    (hsj : st.state_json = some cur)
    (hst : cur.state = some "RUNNING")
    (hhb : st.heartbeat = some hb)
    (hts : hb.timestamp ≠ "")
    (hpt : env.parseIso hb.timestamp = some hb_t)
    (hstale : HEARTBEAT_STALE_SEC ≤ env.now - hb_t)
    (hm : st.stale_marker = some m)
    (hmt : env.parseIso m.timestamp = some m_t)
    (hmage : STALE_MARKER_MIN_AGE_SEC ≤ env.now - m_t)
    (hep : m.heartbeat_epoch_at_observation = hb.timestamp)
    (hinst : cur.instance_name ≠ "")
    (hzone : cur.zone ≠ "")
    (hvm : env.vm_exists cur.instance_name cur.zone = false)
    (hen : is_restart_enabled st = true)
    (hcfg : st.restart_config = some c)
    (hatt : cur.attempt < c.auto_restart_max.getD 3)
    (hstop : st.stop_file = false) :
    (reconcile_run false env run_id st).action = some "orphaned" ∧
    (reconcile_run false env run_id st).created = [] ∧
    (∀ (stX : RunStore) (cfgX : Option RestartConfig),
        try_restart false env stX (some cur) cfgX =
          { action := none, store := stX, created := [] }) ∧
    ∃ rec2, (reconcile_run false env run_id st).store.state_json = some rec2 ∧
      rec2.state = some "ORPHANED" := by
  rw [reconcile_confirm_orphan_from_running env run_id st cur hb m hb_t m_t
    hsj hst hhb hts hpt hstale hm hmt hmage hep hinst hzone hvm]
  obtain ⟨o, ho⟩ := reconcile_drift_phase_shape false st
  rw [ho]
  have hbind : (st.state_json.bind fun x => x.state) = some "RUNNING" := by
    rw [hsj]; exact hst
  have hterm2 : is_terminal
      ((({ st with status_txt := o } : RunStore).state_json.bind (·.state)).getD "")
      = false := by
    show is_terminal ((st.state_json.bind fun x => x.state).getD "") = false
    rw [hbind]
    rfl
  have hcan2 : can_transition
      (({ st with status_txt := o } : RunStore).state_json.bind (·.state))
      "ORPHANED" "reconciler" = true := by
    show can_transition (st.state_json.bind fun x => x.state) "ORPHANED" "reconciler" = true
    rw [hbind]
    rfl
  rw [write_state_cas_accepts env { st with status_txt := o } "ORPHANED"
    "stale_heartbeat_vm_gone" "reconciler" hterm2 hcan2]
  exact ⟨rfl, rfl,
    fun stX cfgX => try_restart_state_not_eligible false env stX (some cur)
      cfgX (by simp [hst]) (by simp [hst]),
    ⟨_, rfl, rfl⟩⟩

/-- Witness for C10: the concrete C1 scenario with restart fully enabled
(flag set, config present, attempts available, no `.stop`); the tick still
reports `orphaned` and creates nothing. -/
theorem c10_witness :
    (reconcile_run false testEnv "run-1"
        { emptyStore with state_json := some runningRec,
                          heartbeat := some { timestamp := "100" },
                          stale_marker := some { timestamp := "500", heartbeat_epoch_at_observation := "100" },
                          restart_config := some basicConfig,
                          restart_enabled_flag := some enabledFlag }).action
      = some "orphaned" ∧
    (reconcile_run false testEnv "run-1"
        { emptyStore with state_json := some runningRec,
                          heartbeat := some { timestamp := "100" },
                          stale_marker := some { timestamp := "500", heartbeat_epoch_at_observation := "100" },
                          restart_config := some basicConfig,
                          restart_enabled_flag := some enabledFlag }).created
      = [] ∧
    (try_restart false testEnv
        { emptyStore with state_json := some runningRec,
                          heartbeat := some { timestamp := "100" },
                          stale_marker := some { timestamp := "500", heartbeat_epoch_at_observation := "100" },
                          restart_config := some basicConfig,
                          restart_enabled_flag := some enabledFlag }
        (some runningRec) (some basicConfig) =
      { action := none,
        store := { emptyStore with state_json := some runningRec,
                                   heartbeat := some { timestamp := "100" },
                                   stale_marker := some { timestamp := "500", heartbeat_epoch_at_observation := "100" },
                                   restart_config := some basicConfig,
                                   restart_enabled_flag := some enabledFlag },
        created := [] }) ∧
    ∃ rec2, (reconcile_run false testEnv "run-1"
        { emptyStore with state_json := some runningRec,
                          heartbeat := some { timestamp := "100" },
                          stale_marker := some { timestamp := "500", heartbeat_epoch_at_observation := "100" },
                          restart_config := some basicConfig,
                          restart_enabled_flag := some enabledFlag }).store.state_json
        = some rec2 ∧
      rec2.state = some "ORPHANED" := by
  obtain ⟨h1, h2, h3, h4⟩ := c10_restart_deferred_to_next_tick testEnv "run-1"
    { emptyStore with state_json := some runningRec,
                      heartbeat := some { timestamp := "100" },
                      stale_marker := some { timestamp := "500", heartbeat_epoch_at_observation := "100" },
                      restart_config := some basicConfig,
                      restart_enabled_flag := some enabledFlag }
    runningRec { timestamp := "100" }
    { timestamp := "500", heartbeat_epoch_at_observation := "100" } 100 500
    basicConfig
    rfl rfl rfl (by decide) (by decide) (by decide) rfl (by decide) (by decide)
    rfl (by decide) (by decide) rfl rfl rfl (by decide) rfl
  exact ⟨h1, h2, h3 _ (some basicConfig), h4⟩

/-- Claim C6 (amended): when the matured stale marker's recorded epoch is
non-empty and differs from the current (still stale) heartbeat timestamp, the
live reconcile deletes the marker and returns no action; an empty or missing
recorded epoch is instead treated as matching and the protocol proceeds. -/
theorem c6_amended_epoch_mismatch (env : Env) (run_id : String)
    (st : RunStore) (hb : Heartbeat) (m : StaleMarker) (hb_t m_t : Nat)
    (hterm : is_terminal ((st.state_json.bind (·.state)).getD "") = false)
    (hnr : (st.state_json.bind (·.state)) ≠ some "RESTARTING")
    (hhb : st.heartbeat = some hb)
    (hts : hb.timestamp ≠ "")
    (hpt : env.parseIso hb.timestamp = some hb_t)
    (hstale : HEARTBEAT_STALE_SEC ≤ env.now - hb_t)
    (hm : st.stale_marker = some m)
    (hmt : env.parseIso m.timestamp = some m_t)
    (hmage : STALE_MARKER_MIN_AGE_SEC ≤ env.now - m_t)
    (hepne : m.heartbeat_epoch_at_observation ≠ "")
    (hepdiff : m.heartbeat_epoch_at_observation ≠ hb.timestamp) :
    reconcile_run false env run_id st =
      { action := none,
        store := { reconcile_drift_phase false st with stale_marker := none },
        created := [] } := by
  obtain ⟨o, ho⟩ := reconcile_drift_phase_shape false st
  have hnotfresh : ¬ (env.now - hb_t < HEARTBEAT_STALE_SEC) := by omega
  have hnottoofresh : ¬ (env.now - m_t < STALE_MARKER_MIN_AGE_SEC) := by omega
  unfold reconcile_run
  dsimp only
  rw [if_neg (by simp [hterm])]
  rw [if_neg hnr]
  rw [ho]
  dsimp only
  rw [hhb]
  dsimp only
  rw [if_neg hts]
  rw [hpt]
  dsimp only
  rw [if_neg hnotfresh]
  rw [hm]
  dsimp only
  rw [hmt]
  dsimp only
  rw [decide_eq_false hnottoofresh]
  rw [if_neg (by simp : ¬ ((false : Bool) = true))]
  rw [if_pos ⟨hepne, hepdiff⟩]
  rw [if_neg (by simp : ¬ ((false : Bool) = true))]

/-- Witness for C6 (amended): marker epoch `"500"` differs from the current
stale heartbeat timestamp `"100"`; the marker is deleted and no action
returned. -/
theorem c6_witness :
    reconcile_run false testEnv "run-1"
        { emptyStore with state_json := some runningRec,
                          heartbeat := some { timestamp := "100" },
                          stale_marker := some { timestamp := "500", heartbeat_epoch_at_observation := "500" } } =
      { action := none,
        store := { reconcile_drift_phase false
            { emptyStore with state_json := some runningRec,
                              heartbeat := some { timestamp := "100" },
                              stale_marker := some { timestamp := "500", heartbeat_epoch_at_observation := "500" } } with stale_marker := none },
        created := [] } :=
  c6_amended_epoch_mismatch testEnv "run-1"
    { emptyStore with state_json := some runningRec,
                      heartbeat := some { timestamp := "100" },
                      stale_marker := some { timestamp := "500", heartbeat_epoch_at_observation := "500" } }
    { timestamp := "100" }
    { timestamp := "500", heartbeat_epoch_at_observation := "500" } 100 500
    (by decide) (by decide) rfl (by decide) (by decide) (by decide) rfl
    (by decide) (by decide) (by decide) (by decide)

/-- Counterexample for C6 as stated: with the stored epoch empty (a missing
`heartbeat_epoch_at_observation` reads as `""`), the guard treats it as
matching: the marker is kept and the tick proceeds to the VM check, here
returning `stale_vm_alive` — not the claimed marker delete with no action. -/
theorem c6_counterexample :
    (reconcile_run false { testEnv with vm_exists := fun _ _ => true } "run-1"
        { emptyStore with state_json := some runningRec,
                          heartbeat := some { timestamp := "100" },
                          stale_marker := some { timestamp := "500", heartbeat_epoch_at_observation := "" } }).action
      = some "stale_vm_alive" ∧
    (reconcile_run false { testEnv with vm_exists := fun _ _ => true } "run-1"
        { emptyStore with state_json := some runningRec,
                          heartbeat := some { timestamp := "100" },
                          stale_marker := some { timestamp := "500", heartbeat_epoch_at_observation := "" } }).store.stale_marker
      = some { timestamp := "500", heartbeat_epoch_at_observation := "" } := by
  exact ⟨rfl, rfl⟩

end Reconciler
